import Mathlib

/-
Verification of the face-identity enrollment and matching subsystem of the
EduLink discipline-tracking application, together with the scan-page and
image-resize frontend logic that surrounds it.

The backend matching engine, embedding codec and enrollment manager are not
present in the repository snapshot (only the SQL schema, deployment scripts
and the React frontend are), so those components are modelled from the
specification, as marked on each definition. The frontend definitions are
direct embeddings of the JavaScript source:
  - frontend/src/utils/imageResize.js   (resizeImageForFaceDetection)
  - frontend/src/pages/ScanPage.jsx     (captureImage, identifyMutation,
                                         result rendering)
-/

namespace EduLink

/-- Embeddings are fixed-length vectors of real numbers; we model the numeric
entries as rationals so that every definition is executable and exact. -/
abbrev Vec := List ℚ

/-- Componentwise dot product of two vectors; trailing entries of the longer
vector are ignored (every stored and probe vector has the same length D, so
this case does not arise in use). -/
def dot : Vec → Vec → ℚ
  | a :: as, b :: bs => a * b + dot as bs
  | _, _ => 0

/-- Modelled from the spec: cosine similarity is the dot product of the
L2-normalized probe and candidate vectors (spec glossary and section 4.3
step 3). The backend matcher is not under src/. Real-number L2 normalization
(division by Euclidean norms) has no exact rational form, so the model takes
embeddings as already L2-normalized, under which cosine similarity is exactly
the dot product. -/
def cosSim (p c : Vec) : ℚ := dot p c

/-- Modelled from the spec: the tie-break epsilon, 1e-6 (spec section 4.3
step 4). -/
def eps : ℚ := 1 / 1000000

/-- Modelled from the spec: the reason field of a MatchResult, covering the
failure taxonomy of spec section 4.3 plus a constructor for a successful
match. -/
inductive Reason where
  | Matched
  | EmptyCandidateSet
  | BelowThreshold
  | Ambiguous
  | NoFaceDetected
  | MultipleFacesDetected
  | ExtractorUnavailable
deriving DecidableEq, Repr

/-- Modelled from the spec: the ephemeral MatchResult value object of spec
section 3 (matched flag, optional student id, similarity, reason). -/
structure MatchResult where
  matched : Bool
  studentId : Option ℕ
  similarity : ℚ
  reason : Reason
deriving DecidableEq, Repr

/-- Modelled from the spec: the linear scan of section 4.3 step 3, pairing
each candidate student id with its cosine similarity to the probe. -/
def scored (probe : Vec) (cands : List (ℕ × Vec)) : List (ℕ × ℚ) :=
  cands.map fun x => (x.1, cosSim probe x.2)

/-- Modelled from the spec: the maximum similarity tracked by the linear scan
over a nonempty candidate set, written as head candidate plus tail. -/
def maxSimilarity (probe : Vec) (c : ℕ × Vec) (cs : List (ℕ × Vec)) : ℚ :=
  (cs.map fun x => cosSim probe x.2).foldl max (cosSim probe c.2)

/-- Modelled from the spec: the scored candidates whose similarity lies within
eps of the maximum (the owners tracked by section 4.3 step 4). -/
def nearMax (probe : Vec) (c : ℕ × Vec) (cs : List (ℕ × Vec)) : List (ℕ × ℚ) :=
  (scored probe (c :: cs)).filter fun x => maxSimilarity probe c cs - x.2 ≤ eps

/-- Modelled from the spec: the matching engine at the embedding level, spec
section 4.3 steps 2 to 5. An empty candidate set yields EmptyCandidateSet;
more than one candidate within eps of the maximum yields Ambiguous; otherwise
the maximum is compared against the threshold. -/
def identify (probe : Vec) (t : ℚ) : List (ℕ × Vec) → MatchResult
  | [] =>
    { matched := false, studentId := none, similarity := 0,
      reason := Reason.EmptyCandidateSet }
  | c :: cs =>
    if 2 ≤ (nearMax probe c cs).length then
      { matched := false, studentId := none,
        similarity := maxSimilarity probe c cs, reason := Reason.Ambiguous }
    else if t ≤ maxSimilarity probe c cs then
      { matched := true, studentId := ((nearMax probe c cs).head?).map Prod.fst,
        similarity := maxSimilarity probe c cs, reason := Reason.Matched }
    else
      { matched := false, studentId := none,
        similarity := maxSimilarity probe c cs, reason := Reason.BelowThreshold }

/-- Modelled from the spec: the typed failures of the external embedding
extractor (spec section 2). -/
inductive ExtractionError where
  | NoFaceDetected
  | MultipleFacesDetected
  | Unavailable
deriving DecidableEq, Repr

/-- Modelled from the spec: identify at the image level, spec section 4.3
step 1. The extractor is an injected external capability; its typed failures
are propagated distinctly from identification outcomes, before the
empty-candidate-set check of step 2. -/
def identifyImage {Image : Type} (extract : Image → Except ExtractionError Vec)
    (img : Image) (t : ℚ) (cands : List (ℕ × Vec)) : MatchResult :=
  match extract img with
  | Except.error ExtractionError.NoFaceDetected =>
    { matched := false, studentId := none, similarity := 0,
      reason := Reason.NoFaceDetected }
  | Except.error ExtractionError.MultipleFacesDetected =>
    { matched := false, studentId := none, similarity := 0,
      reason := Reason.MultipleFacesDetected }
  | Except.error ExtractionError.Unavailable =>
    { matched := false, studentId := none, similarity := 0,
      reason := Reason.ExtractorUnavailable }
  | Except.ok e => identify e t cands

/-- Modelled from the spec: an extractor that finds no face in any image,
one possible behavior of the external collaborator of spec section 2. -/
def noFaceExtractor : Unit → Except ExtractionError Vec :=
  fun _ => Except.error ExtractionError.NoFaceDetected

/-- Modelled from the spec: one token of the persisted textual form of an
embedding (the face_embedding TEXT column stores a JSON array, per the schema
comment in backend/migrations/create_tables_postgres.sql). A token is either
a numeric literal or some non-numeric text. -/
inductive Token where
  | num (q : ℚ)
  | other (s : String)
deriving DecidableEq, Repr

/-- Modelled from the spec: the typed failures of decode, spec section 4.1
(stored length differs from the expected dimension, or a non-numeric token)
and section 6 (DimensionMismatch). -/
inductive DecodeError where
  | DimensionMismatch
  | NonNumericToken
deriving DecidableEq, Repr

/-- Modelled from the spec: encode serializes a vector as the list of its
numeric tokens (spec section 4.1). -/
def encode (v : Vec) : List Token := v.map Token.num

/-- Modelled from the spec: reading the numeric value of every token,
failing on the first non-numeric token (spec section 4.1). -/
def parseTokens : List Token → Except DecodeError Vec
  | [] => Except.ok []
  | Token.num q :: ts => (parseTokens ts).map fun v => q :: v
  | Token.other _ :: _ => Except.error DecodeError.NonNumericToken

/-- Modelled from the spec: decode checks the stored length against the
expected dimension D and parses the tokens (spec section 4.1). -/
def decode (D : ℕ) (ts : List Token) : Except DecodeError Vec :=
  if ts.length = D then parseTokens ts
  else Except.error DecodeError.DimensionMismatch

/-- The students table, restricted to what this subsystem touches: each row
carries the student key and its single nullable face_embedding slot
(backend/migrations/create_tables_postgres.sql lines 11-20). -/
abbrev Store := List (ℕ × Option Vec)

/-- Modelled from the spec: enrollment persists the freshly extracted
embedding for the student, wholesale-replacing any prior value (spec
sections 3 and 4.2); an UPDATE of the face_embedding column of the row with
the matching key. -/
def enroll (store : Store) (sid : ℕ) (v : Vec) : Store :=
  store.map fun p => if p.1 = sid then (p.1, some v) else p

/-- The candidate set read by identify: the students that currently hold an
embedding, paired with it (rows whose face_embedding is non-null). -/
def candidatesOf (store : Store) : List (ℕ × Vec) :=
  store.filterMap fun p => p.2.map fun v => (p.1, v)

/-- Output dimensions computed by resizeImageForFaceDetection
(frontend/src/utils/imageResize.js lines 13-25): if either side exceeds
maxSize, the larger side becomes maxSize and the other is scaled by the same
factor and rounded (Math.round rounds half toward positive infinity, as
Mathlib round does); otherwise the dimensions are unchanged. -/
def resizeDims (width height maxSize : ℕ) : ℤ × ℤ :=
  if maxSize < width ∨ maxSize < height then
    if height ≤ width then
      ((maxSize : ℤ), round (((height : ℚ) / (width : ℚ)) * (maxSize : ℚ)))
    else
      (round (((width : ℚ) / (height : ℚ)) * (maxSize : ℚ)), (maxSize : ℤ))
  else ((width : ℤ), (height : ℤ))

/-- The JSON body of a response from POST /api/students/identify, as consumed
by identifyMutation in ScanPage.jsx (fields matched, student, match_confidence,
message; the student is abstracted to its display name). -/
structure IdentifyResponse where
  matched : Bool
  studentName : Option String
  matchConfidence : Option ℚ
  message : Option String
deriving DecidableEq, Repr

/-- The ScanPage component state relevant to identification
(ScanPage.jsx lines 26-31). -/
structure ScanState where
  capturedImage : Option String
  identifiedStudent : Option String
  matchConfidence : Option ℚ
deriving DecidableEq, Repr

/-- The onSuccess handler of identifyMutation (ScanPage.jsx lines 44-53): on
a matched response the student and the raw match_confidence are stored
unchanged; otherwise both are cleared. -/
def onIdentifySuccess (st : ScanState) (data : IdentifyResponse) : ScanState :=
  if data.matched then
    { st with identifiedStudent := data.studentName,
              matchConfidence := data.matchConfidence }
  else
    { st with identifiedStudent := none, matchConfidence := none }

/-- The numeric value of x.toFixed(1): x rounded to one decimal place
(ECMAScript toFixed picks the larger integer on ties, as Mathlib round
does). -/
def toFixed1 (x : ℚ) : ℚ := ((round (10 * x) : ℤ) : ℚ) / 10

/-- The confidence figure displayed by ScanPage.jsx line 245:
(matchConfidence * 100).toFixed(1). -/
def displayedConfidencePct (c : ℚ) : ℚ := toFixed1 (c * 100)

/-- The state of identifyMutation as read by the render
(isPending, isError, data). -/
structure MutationView where
  isPending : Bool
  isError : Bool
  data : Option IdentifyResponse
deriving DecidableEq, Repr

/-- The identification-result card rendered by ScanPage.jsx lines 230-388:
a pending spinner, the identified-student card (name and confidence
percentage), a failure card (heading, message, button label), or nothing. -/
inductive ResultView where
  | pending
  | identifiedCard (name : String) (pct : ℚ)
  | failureCard (heading : String) (message : String) (button : String)
  | empty
deriving DecidableEq, Repr

/-- The render of the identification-result section (ScanPage.jsx lines
232-386): pending shows the spinner; an identified student shows the student
card with the formatted confidence; otherwise, when the mutation errored or
returned matched false, one shared failure card is shown, headed Student Not
Found with a Try Again button, whose message is the response message when
present and a generic fallback otherwise; otherwise nothing. -/
def renderResult (m : MutationView) (st : ScanState) : ResultView :=
  if m.isPending then ResultView.pending
  else
    match st.identifiedStudent with
    | some name =>
      ResultView.identifiedCard name
        (displayedConfidencePct ((st.matchConfidence).getD 0))
    | none =>
      if m.isError = true ∨ (m.data).map IdentifyResponse.matched = some false then
        ResultView.failureCard "Student Not Found"
          (((m.data).bind IdentifyResponse.message).getD
            "No matching student found in the database")
          "Try Again"
      else ResultView.empty

/-- One observable step performed by the captureImage callback
(ScanPage.jsx lines 93-110): clearing a piece of state, storing the captured
image, or issuing the identification request. -/
inductive Action where
  | clearIdentified
  | clearConfidence
  | clearSeverity
  | clearType
  | clearNotes
  | setCaptured (img : String)
  | identifyRequest (img : String)
deriving DecidableEq, Repr

/-- Whether an action is the identification request. -/
def isIdentifyRequest : Action → Bool
  | Action.identifyRequest _ => true
  | _ => false

/-- The sequence of steps performed by captureImage (ScanPage.jsx lines
93-110): nothing when the webcam yields no screenshot; otherwise the five
state clears, then, if the resize resolves, store and send the resized image,
and if it throws, store and send the original screenshot. -/
def captureTrace (screenshot : Option String)
    (resizeResult : Except String String) : List Action :=
  match screenshot with
  | none => []
  | some img =>
    [Action.clearIdentified, Action.clearConfidence, Action.clearSeverity,
     Action.clearType, Action.clearNotes] ++
    match resizeResult with
    | Except.ok r => [Action.setCaptured r, Action.identifyRequest r]
    | Except.error _ => [Action.setCaptured img, Action.identifyRequest img]

/-- Claim C1: for every probe embedding and nonempty candidate set in which
exactly one candidate lies within eps of the maximum cosine similarity,
identify returns matched true with that candidate and similarity equal to the
maximum when the maximum is at least the threshold, and matched false with
reason BelowThreshold when the maximum is below the threshold. -/
theorem identify_unique_max (probe : Vec) (c : ℕ × Vec) (cs : List (ℕ × Vec))
    (t : ℚ) (sid : ℕ) (s : ℚ) (huniq : nearMax probe c cs = [(sid, s)]) :
    (t ≤ maxSimilarity probe c cs →
      identify probe t (c :: cs) =
        { matched := true, studentId := some sid,
          similarity := maxSimilarity probe c cs, reason := Reason.Matched }) ∧
    (maxSimilarity probe c cs < t →
      identify probe t (c :: cs) =
        { matched := false, studentId := none,
          similarity := maxSimilarity probe c cs,
          reason := Reason.BelowThreshold }) := by
  constructor
  · intro ht
    simp only [identify, huniq]
    rw [if_neg (by norm_num), if_pos ht]
    rfl
  · intro ht
    simp only [identify, huniq]
    rw [if_neg (by norm_num), if_neg (not_le.mpr ht)]

/-- Witness for C1: scenario A of the spec in dimension two, with student 1
enrolled on the first basis vector, student 2 on the second, probed with the
first basis vector at threshold one half. -/
theorem identify_unique_max_witness :
    identify [1, 0] (1 / 2) [(1, [1, 0]), (2, [0, 1])] =
      { matched := true, studentId := some 1,
        similarity := maxSimilarity [1, 0] (1, [1, 0]) [(2, [0, 1])],
        reason := Reason.Matched } :=
  (identify_unique_max [1, 0] (1, [1, 0]) [(2, [0, 1])] (1 / 2) 1 1
    (by norm_num [nearMax, maxSimilarity, scored, cosSim, dot, eps])).1
    (by norm_num [maxSimilarity, cosSim, dot])

/-- Claim C2: whenever at least two candidates lie within eps of the maximum
similarity, identify returns matched false with reason Ambiguous, for every
threshold. -/
theorem identify_ambiguous_ties (probe : Vec) (c : ℕ × Vec)
    (cs : List (ℕ × Vec)) (t : ℚ)
    (htie : 2 ≤ (nearMax probe c cs).length) :
    (identify probe t (c :: cs)).matched = false ∧
    (identify probe t (c :: cs)).reason = Reason.Ambiguous := by
  simp [identify, if_pos htie]

/-- Witness for C2: two candidates enrolled on the same vector as the probe,
with a threshold the maximum clears. -/
theorem identify_ambiguous_ties_witness :
    (identify [1, 0] 1 [(1, [1, 0]), (2, [1, 0])]).matched = false ∧
    (identify [1, 0] 1 [(1, [1, 0]), (2, [1, 0])]).reason = Reason.Ambiguous :=
  identify_ambiguous_ties [1, 0] (1, [1, 0]) [(2, [1, 0])] 1
    (by norm_num [nearMax, maxSimilarity, scored, cosSim, dot, eps])

/-- Claim C4: for a fixed probe and candidate set, if identify matches at the
higher of two thresholds then it matches at the lower one too, for the same
student. -/
theorem identify_threshold_mono (probe : Vec) (cands : List (ℕ × Vec))
    (t1 t2 : ℚ) (h12 : t1 ≤ t2)
    (h : (identify probe t2 cands).matched = true) :
    (identify probe t1 cands).matched = true ∧
    (identify probe t1 cands).studentId = (identify probe t2 cands).studentId := by
  match cands with
  | [] => simp [identify] at h
  | c :: cs =>
    by_cases hamb : 2 ≤ (nearMax probe c cs).length
    · simp [identify, if_pos hamb] at h
    · by_cases ht2 : t2 ≤ maxSimilarity probe c cs
      · have ht1 : t1 ≤ maxSimilarity probe c cs := le_trans h12 ht2
        simp [identify, if_neg hamb, if_pos ht1, if_pos ht2]
      · simp [identify, if_neg hamb, if_neg ht2] at h

/-- Witness for C4: the scenario A candidate set matched at threshold three
quarters remains matched, for the same student, at threshold one quarter. -/
theorem identify_threshold_mono_witness :
    (identify [1, 0] (1 / 4) [(1, [1, 0]), (2, [0, 1])]).matched = true ∧
    (identify [1, 0] (1 / 4) [(1, [1, 0]), (2, [0, 1])]).studentId =
      (identify [1, 0] (3 / 4) [(1, [1, 0]), (2, [0, 1])]).studentId :=
  identify_threshold_mono [1, 0] [(1, [1, 0]), (2, [0, 1])] (1 / 4) (3 / 4)
    (by norm_num)
    (by norm_num [identify, nearMax, maxSimilarity, scored, cosSim, dot, eps])

/-- Counterexample to C3 as stated: the outcome of identify on an empty
candidate set is not independent of the probe image. A probe image in which
the extractor finds no face is answered with reason NoFaceDetected, which the
spec propagates before the empty-candidate-set check, so the claimed
EmptyCandidateSet result is not returned. -/
theorem identify_empty_not_probe_independent :
    identifyImage noFaceExtractor () (1 / 2) [] ≠
      { matched := false, studentId := none, similarity := 0,
        reason := Reason.EmptyCandidateSet } := by
  intro h
  have hr : Reason.NoFaceDetected = Reason.EmptyCandidateSet :=
    congrArg MatchResult.reason h
  exact Reason.noConfusion hr

/-- Claim C3 as amended: for every probe image whose embedding extraction
succeeds, identify with an empty candidate set returns matched false with
reason EmptyCandidateSet, independent of the extracted embedding. -/
theorem identify_empty_candidates {Image : Type}
    (extract : Image → Except ExtractionError Vec) (img : Image) (t : ℚ)
    (e : Vec) (hex : extract img = Except.ok e) :
    identifyImage extract img t [] =
      { matched := false, studentId := none, similarity := 0,
        reason := Reason.EmptyCandidateSet } := by
  unfold identifyImage
  rw [hex]
  rfl

/-- Witness for the amended C3: an extractor that succeeds with the first
basis vector on the only image. -/
theorem identify_empty_candidates_witness :
    identifyImage (fun _ : Unit => Except.ok [(1 : ℚ), 0]) () (1 / 2) [] =
      { matched := false, studentId := none, similarity := 0,
        reason := Reason.EmptyCandidateSet } :=
  identify_empty_candidates (fun _ : Unit => Except.ok [(1 : ℚ), 0]) () (1 / 2)
    [1, 0] rfl

/-- Parsing the encoding of any vector recovers the vector exactly. -/
theorem parseTokens_encode (v : Vec) : parseTokens (encode v) = Except.ok v := by
  induction v with
  | nil => rfl
  | cons a as ih =>
    have hcons : encode (a :: as) = Token.num a :: encode as := rfl
    rw [hcons, parseTokens, ih]
    rfl

/-- Claim C5: decoding the encoding of any vector of the expected dimension
succeeds and agrees with the original componentwise within 1e-6 (in fact
exactly). -/
theorem decode_encode_roundtrip (D : ℕ) (v : Vec) (hlen : v.length = D) :
    ∃ w, decode D (encode v) = Except.ok w ∧ w.length = v.length ∧
      ∀ i, i < v.length → |w.getD i 0 - v.getD i 0| ≤ eps := by
  refine ⟨v, ?_, rfl, ?_⟩
  · rw [decode, if_pos (by simp [encode, hlen])]
    exact parseTokens_encode v
  · intro i hi
    simp only [sub_self, abs_zero]
    norm_num [eps]

/-- Witness for C5: a vector of the default dimension 512. -/
theorem decode_encode_roundtrip_witness :
    ∃ w, decode 512 (encode (List.replicate 512 ((1 : ℚ) / 2))) = Except.ok w ∧
      w.length = (List.replicate 512 ((1 : ℚ) / 2)).length ∧
      ∀ i, i < (List.replicate 512 ((1 : ℚ) / 2)).length →
        |w.getD i 0 - (List.replicate 512 ((1 : ℚ) / 2)).getD i 0| ≤ eps :=
  decode_encode_roundtrip 512 (List.replicate 512 ((1 : ℚ) / 2))
    (List.length_replicate 512 ((1 : ℚ) / 2))

/-- Enrollment does not change the set of student keys, only the embedding
slot of the enrolled student. -/
theorem enroll_keys (store : Store) (sid : ℕ) (v : Vec) :
    (enroll store sid v).map Prod.fst = store.map Prod.fst := by
  induction store with
  | nil => rfl
  | cons p rest ih =>
    simp only [enroll, List.map_cons] at ih ⊢
    by_cases h : p.1 = sid
    · simp [h, ih]
    · simp [h, ih]

/-- Every row of the enrolled student after enrollment carries exactly the
new embedding. -/
theorem enroll_mem (store : Store) (sid : ℕ) (v : Vec) :
    ∀ p ∈ enroll store sid v, p.1 = sid → p.2 = some v := by
  intro p hp hkey
  simp only [enroll, List.mem_map] at hp
  obtain ⟨q, hq, rfl⟩ := hp
  by_cases h : q.1 = sid
  · simp [h]
  · rw [if_neg h] at hkey ⊢
    exact absurd hkey h

/-- Every candidate entry for the enrolled student after enrollment carries
exactly the new embedding. -/
theorem candidatesOf_enroll_key (store : Store) (sid : ℕ) (v : Vec) :
    ∀ q ∈ candidatesOf (enroll store sid v), q.1 = sid → q.2 = v := by
  intro q hq hkey
  simp only [candidatesOf, List.mem_filterMap] at hq
  obtain ⟨p, hp, hmap⟩ := hq
  cases h2 : p.2 with
  | none => rw [h2] at hmap; cases hmap
  | some w =>
    rw [h2] at hmap
    have hq2 : ((p.1, w) : ℕ × Vec) = q := Option.some.inj hmap
    have hval : p.2 = some v := by
      apply enroll_mem store sid v p hp
      rw [← hq2] at hkey
      exact hkey
    rw [h2] at hval
    rw [← hq2]
    exact Option.some.inj hval

/-- The key of every candidate entry is a key of the store. -/
theorem candidatesOf_key_mem (store : Store) :
    ∀ q ∈ candidatesOf store, q.1 ∈ store.map Prod.fst := by
  intro q hq
  simp only [candidatesOf, List.mem_filterMap] at hq
  obtain ⟨p, hp, hmap⟩ := hq
  cases h2 : p.2 with
  | none => rw [h2] at hmap; cases hmap
  | some w =>
    rw [h2] at hmap
    have hq2 : ((p.1, w) : ℕ × Vec) = q := Option.some.inj hmap
    rw [← hq2]
    exact List.mem_map_of_mem Prod.fst hp

/-- A student absent from the store owns no candidate entry. -/
theorem candidatesOf_filter_not_mem (store : Store) (sid : ℕ)
    (h : sid ∉ store.map Prod.fst) :
    (candidatesOf store).filter (fun q => q.1 = sid) = [] := by
  rw [List.filter_eq_nil_iff]
  intro q hq
  simp only [decide_eq_true_eq]
  intro hk
  exact h (hk ▸ candidatesOf_key_mem store q hq)

/-- With unique student keys, a student owns at most one candidate entry. -/
theorem candidatesOf_filter_len (store : Store) (sid : ℕ)
    (hnd : (store.map Prod.fst).Nodup) :
    ((candidatesOf store).filter (fun q => q.1 = sid)).length ≤ 1 := by
  induction store with
  | nil => simp [candidatesOf]
  | cons p rest ih =>
    rw [List.map_cons, List.nodup_cons] at hnd
    cases hp : p.2 with
    | none =>
      have hcons : candidatesOf (p :: rest) = candidatesOf rest :=
        List.filterMap_cons_none (by simp [hp])
      rw [hcons]
      exact ih hnd.2
    | some w =>
      have hcons : candidatesOf (p :: rest) = (p.1, w) :: candidatesOf rest :=
        List.filterMap_cons_some (by simp [hp])
      rw [hcons, List.filter_cons]
      by_cases hk : p.1 = sid
      · rw [if_pos (by simpa using hk)]
        rw [candidatesOf_filter_not_mem rest sid (hk ▸ hnd.1)]
        simp
      · rw [if_neg (by simpa using hk)]
        exact ih hnd.2

/-- Claim C6: with unique student keys, re-enrollment wholesale-replaces the
single embedding slot of the student: the keys are unchanged, every row and
every candidate entry of the student carries exactly the new vector, every
later identify scan scores the student only against the new vector, and the
student owns at most one candidate entry. -/
theorem enroll_replaces_single (store : Store) (sid : ℕ) (v2 : Vec)
    (probe : Vec) (hnd : (store.map Prod.fst).Nodup) :
    (enroll store sid v2).map Prod.fst = store.map Prod.fst ∧
    (∀ p ∈ enroll store sid v2, p.1 = sid → p.2 = some v2) ∧
    (∀ q ∈ candidatesOf (enroll store sid v2), q.1 = sid → q.2 = v2) ∧
    (∀ e ∈ scored probe (candidatesOf (enroll store sid v2)),
      e.1 = sid → e.2 = cosSim probe v2) ∧
    ((candidatesOf (enroll store sid v2)).filter
      (fun q => q.1 = sid)).length ≤ 1 := by
  refine ⟨enroll_keys store sid v2, enroll_mem store sid v2,
    candidatesOf_enroll_key store sid v2, ?_, ?_⟩
  · intro e he hkey
    simp only [scored, List.mem_map] at he
    obtain ⟨q, hq, rfl⟩ := he
    exact congrArg (cosSim probe) (candidatesOf_enroll_key store sid v2 q hq hkey)
  · apply candidatesOf_filter_len
    rw [enroll_keys store sid v2]
    exact hnd

/-- Witness for C6: student 1 re-enrolled with the second basis vector in a
two-student store. -/
theorem enroll_replaces_single_witness :
    (enroll [(1, some [1, 0]), (2, none)] 1 [0, 1]).map Prod.fst =
      ([(1, some [1, 0]), (2, none)] : Store).map Prod.fst ∧
    ((candidatesOf (enroll [(1, some [1, 0]), (2, none)] 1 [0, 1])).filter
      (fun q => q.1 = 1)).length ≤ 1 :=
  ⟨(enroll_replaces_single [(1, some [1, 0]), (2, none)] 1 [0, 1] [1, 0]
      (by simp)).1,
   (enroll_replaces_single [(1, some [1, 0]), (2, none)] 1 [0, 1] [1, 0]
      (by simp)).2.2.2.2⟩

/-- Counterexample to C7 as stated: two of the three situations are presented
to the user as the same outcome. A system error (the mutation errored with no
response data) and a legitimate non-match (a completed response with matched
false and no message) render the identical failure card, headed Student Not
Found with a Try Again button and the same fallback message. -/
theorem scan_failure_render_collision :
    renderResult { isPending := false, isError := true, data := none }
        { capturedImage := some "img", identifiedStudent := none,
          matchConfidence := none } =
      renderResult
        { isPending := false, isError := false,
          data := some { matched := false, studentName := none,
                         matchConfidence := none, message := none } }
        { capturedImage := some "img", identifiedStudent := none,
          matchConfidence := none } ∧
    renderResult { isPending := false, isError := true, data := none }
        { capturedImage := some "img", identifiedStudent := none,
          matchConfidence := none } =
      ResultView.failureCard "Student Not Found"
        "No matching student found in the database" "Try Again" :=
  ⟨rfl, rfl⟩

/-- Claim C7 as amended: every completed non-identification outcome, whether
an input-quality failure, a legitimate non-match, or a system error, is
rendered as the one shared failure card headed Student Not Found with a Try
Again button; the situations differ only in the message string, which is the
response message when one is present and a generic fallback otherwise. -/
theorem scan_failure_single_card (m : MutationView) (st : ScanState)
    (hp : m.isPending = false) (hs : st.identifiedStudent = none)
    (hf : m.isError = true ∨ (m.data).map IdentifyResponse.matched = some false) :
    renderResult m st =
      ResultView.failureCard "Student Not Found"
        (((m.data).bind IdentifyResponse.message).getD
          "No matching student found in the database")
        "Try Again" := by
  rw [renderResult, if_neg (by simp [hp]), hs]
  rw [if_pos hf]

/-- Witness for the amended C7: the system-error situation. -/
theorem scan_failure_single_card_witness :
    renderResult { isPending := false, isError := true, data := none }
        { capturedImage := none, identifiedStudent := none,
          matchConfidence := none } =
      ResultView.failureCard "Student Not Found"
        (((none : Option IdentifyResponse).bind IdentifyResponse.message).getD
          "No matching student found in the database")
        "Try Again" :=
  scan_failure_single_card
    { isPending := false, isError := true, data := none }
    { capturedImage := none, identifiedStudent := none, matchConfidence := none }
    rfl rfl (Or.inl rfl)

/-- Claim C8: on a match the similarity delivered to the caller is the raw
maximum cosine similarity with no recalibration; the scan page stores the
received match_confidence unchanged and renders exactly that value times 100
rounded to one decimal place. -/
theorem confidence_raw_and_displayed (probe : Vec) (t : ℚ) (c : ℕ × Vec)
    (cs : List (ℕ × Vec)) (st : ScanState) (name : String) (msg : Option String)
    (_hm : (identify probe t (c :: cs)).matched = true) :
    (identify probe t (c :: cs)).similarity = maxSimilarity probe c cs ∧
    (onIdentifySuccess st
        { matched := true, studentName := some name,
          matchConfidence := some ((identify probe t (c :: cs)).similarity),
          message := msg }).matchConfidence =
      some ((identify probe t (c :: cs)).similarity) ∧
    renderResult
        { isPending := false, isError := false,
          data := some { matched := true, studentName := some name,
                         matchConfidence :=
                           some ((identify probe t (c :: cs)).similarity),
                         message := msg } }
        (onIdentifySuccess st
          { matched := true, studentName := some name,
            matchConfidence := some ((identify probe t (c :: cs)).similarity),
            message := msg }) =
      ResultView.identifiedCard name
        (((round (10 * ((identify probe t (c :: cs)).similarity * 100)) : ℤ) : ℚ)
          / 10) := by
  refine ⟨?_, ?_, ?_⟩
  · simp only [identify]
    split_ifs <;> rfl
  · simp [onIdentifySuccess]
  · simp [renderResult, onIdentifySuccess, displayedConfidencePct, toFixed1]

/-- Witness for C8: one student enrolled on the probe vector, matched at
threshold one half. -/
theorem confidence_raw_and_displayed_witness :
    (identify [1, 0] (1 / 2) [(7, [1, 0])]).similarity =
      maxSimilarity [1, 0] (7, [1, 0]) [] ∧
    (onIdentifySuccess
        { capturedImage := none, identifiedStudent := none,
          matchConfidence := none }
        { matched := true, studentName := some "Ali",
          matchConfidence := some ((identify [1, 0] (1 / 2) [(7, [1, 0])]).similarity),
          message := none }).matchConfidence =
      some ((identify [1, 0] (1 / 2) [(7, [1, 0])]).similarity) :=
  ⟨(confidence_raw_and_displayed [1, 0] (1 / 2) (7, [1, 0]) []
      { capturedImage := none, identifiedStudent := none, matchConfidence := none }
      "Ali" none
      (by norm_num [identify, nearMax, maxSimilarity, scored, cosSim, dot, eps])).1,
   (confidence_raw_and_displayed [1, 0] (1 / 2) (7, [1, 0]) []
      { capturedImage := none, identifiedStudent := none, matchConfidence := none }
      "Ali" none
      (by norm_num [identify, nearMax, maxSimilarity, scored, cosSim, dot, eps])).2.1⟩

/-- Claim C9: the resize never upscales: when both sides fit in maxSize the
dimensions are unchanged, and otherwise the larger side becomes exactly
maxSize while the smaller side is scaled by the same factor and rounded,
preserving the aspect ratio up to integer rounding. -/
theorem resize_no_upscale (w h m : ℕ) :
    (w ≤ m → h ≤ m → resizeDims w h m = ((w : ℤ), (h : ℤ))) ∧
    (h ≤ w → (m < w ∨ m < h) →
      resizeDims w h m = ((m : ℤ), round (((h : ℚ) / (w : ℚ)) * (m : ℚ)))) ∧
    (w < h → (m < w ∨ m < h) →
      resizeDims w h m = (round (((w : ℚ) / (h : ℚ)) * (m : ℚ)), (m : ℤ))) := by
  refine ⟨?_, ?_, ?_⟩
  · intro h1 h2
    rw [resizeDims, if_neg (by omega)]
  · intro hw hcond
    rw [resizeDims, if_pos hcond, if_pos hw]
  · intro hw hcond
    rw [resizeDims, if_pos hcond, if_neg (by omega)]

/-- Witness for C9: a 1280 by 720 capture resized with maxSize 640. -/
theorem resize_no_upscale_witness :
    resizeDims 1280 720 640 =
      ((640 : ℤ), round (((720 : ℚ) / (1280 : ℚ)) * (640 : ℚ))) :=
  (resize_no_upscale 1280 720 640).2.1 (by norm_num) (Or.inl (by norm_num))

/-- Claim C10: a capture that yields a screenshot issues exactly one
identification request, with the resized image when resizing succeeds and
with the original screenshot when it throws, and the identified student and
confidence are cleared before the request is issued. -/
theorem capture_single_request (img : String) (res : Except String String) :
    ((captureTrace (some img) res).filter isIdentifyRequest).length = 1 ∧
    (∀ r, res = Except.ok r →
      captureTrace (some img) res =
        [Action.clearIdentified, Action.clearConfidence, Action.clearSeverity,
         Action.clearType, Action.clearNotes,
         Action.setCaptured r, Action.identifyRequest r]) ∧
    (∀ e, res = Except.error e →
      captureTrace (some img) res =
        [Action.clearIdentified, Action.clearConfidence, Action.clearSeverity,
         Action.clearType, Action.clearNotes,
         Action.setCaptured img, Action.identifyRequest img]) ∧
    (∃ p pre, captureTrace (some img) res = pre ++ [Action.identifyRequest p] ∧
      Action.clearIdentified ∈ pre ∧ Action.clearConfidence ∈ pre) := by
  cases res with
  | ok r =>
    refine ⟨rfl, ?_, ?_, ?_⟩
    · intro r2 hr
      rw [← Except.ok.inj hr]
      rfl
    · intro e he
      cases he
    · exact ⟨r, [Action.clearIdentified, Action.clearConfidence,
        Action.clearSeverity, Action.clearType, Action.clearNotes,
        Action.setCaptured r], rfl, by simp, by simp⟩
  | error e =>
    refine ⟨rfl, ?_, ?_, ?_⟩
    · intro r2 hr
      cases hr
    · intro e2 he
      rfl
    · exact ⟨img, [Action.clearIdentified, Action.clearConfidence,
        Action.clearSeverity, Action.clearType, Action.clearNotes,
        Action.setCaptured img], rfl, by simp, by simp⟩

/-- Witness for C10: a capture whose resize succeeds. -/
theorem capture_single_request_witness :
    ((captureTrace (some "shot") (Except.ok "small")).filter
      isIdentifyRequest).length = 1 ∧
    captureTrace (some "shot") (Except.ok "small") =
      [Action.clearIdentified, Action.clearConfidence, Action.clearSeverity,
       Action.clearType, Action.clearNotes,
       Action.setCaptured "small", Action.identifyRequest "small"] :=
  ⟨(capture_single_request "shot" (Except.ok "small")).1,
   (capture_single_request "shot" (Except.ok "small")).2.1 "small" rfl⟩

end EduLink
